import Mathlib

/-!
Verification of the fastapi_crudbuilder repository: a shallow embedding of
`src/generators.py`, `crudbuilder/transform.py` and
`fastapi_crudbuilder/builder.py`, with theorems settling the claims about
cache-key derivation, schema synthesis, the postprocessor pipeline and the
CRUD route handlers.

Machine values are embedded as follows: Python strings become `String`,
Python `Optional[str]` becomes `Option String`, SQLAlchemy model instances
become `Entity` (an association list from attribute name to attribute
value, all values rendered as strings — the routes only move values around,
never compute on them), the database table becomes `List Entity`, and the
cache client becomes an association list from key to cached value.
-/

namespace Crudbuilder

/-- Python truthiness of an `Optional[str]` value: `None` and the empty
string are falsy, every other string is truthy. -/
def pyTruthyStr (o : Option String) : Bool :=
  match o with
  | some s => s ≠ ""
  | none => false

/-- Python truthiness of an optional list value: `None` and `[]` are falsy. -/
def pyTruthyList {α : Type} (o : Option (List α)) : Bool :=
  match o with
  | some l => ¬ l.isEmpty
  | none => false

/-- Python `sep.join(s)` where `s` is a string (iterated character by
character): the characters of `s` interleaved with copies of `sep`.
The builder calls this on the cache-prefix string and DISCARDS the result
(`cache_prefix.join(f"_...")` is never assigned), which is why it appears
below only in discarded `let` bindings. -/
def pyStrJoin (sep : String) (s : String) : String :=
  String.intercalate sep (s.toList.map (fun c => String.mk [c]))

/-- Python `s.lower()` as used on the model class name (ASCII case
mapping, character by character). -/
def pyLower (s : String) : String :=
  String.mk (s.data.map Char.toLower)

/-- Python `s.split(sep)` for a nonempty separator, as used on the
comma-separated `relationships` query parameter. -/
def pySplit (s : String) (sep : String) : List String :=
  s.splitOn sep

/-- Embeds `generators.generate_cache_key`: returns
`f"{cache_prefix}_{item_primary_key}_{cache_postfix}"` when `cache_postfix`
is truthy and `f"{cache_prefix}_{item_primary_key}"` otherwise.  Note the
guard is Python truthiness (`if cache_postfix`), so `None` AND the empty
string both select the two-part key. -/
def generate_cache_key (cachePfx : String) (item_primary_key : String)
    (cachePostQual : Option String) : String :=
  if pyTruthyStr cachePostQual then
    cachePfx ++ "_" ++ item_primary_key ++ "_" ++ cachePostQual.getD ""
  else
    cachePfx ++ "_" ++ item_primary_key

/-- A SQLAlchemy `Column` descriptor as consumed by `transform.py`:
only the attributes the source reads (`name`, `primary_key`, `nullable`,
and the truthiness of `default`). -/
structure Column where
  name : String
  primary_key : Bool
  nullable : Bool
  hasDefault : Bool
deriving DecidableEq, Repr

/-- A SQLAlchemy declarative model as consumed by `transform.py`:
its class name, its mapped columns in order, and its relationship names. -/
structure DBModel where
  name : String
  columns : List Column
  relationships : List String
deriving DecidableEq, Repr

/-- Embeds `transform.get_pk`: iterate over the mapped columns and return the
first one marked `primary_key`; `None` when no column is marked. -/
def get_pk (db_model : DBModel) : Option Column :=
  db_model.columns.find? (fun column => column.primary_key)

/-- One field of a synthesized pydantic schema.  Every field built by
`transform.py` is given the pair `(type, None)`, i.e. default `None`,
hence `requiredField = false` throughout; `typeIsOptional` records whether
the type was wrapped in `Optional[...]` (done exactly for nullable
columns). -/
structure SchemaField where
  name : String
  typeIsOptional : Bool
  requiredField : Bool
deriving DecidableEq, Repr

/-- Embeds `transform.get_create_schema`: one field per mapped column with
`not col.default and col.name not in exclude_fields`; primary-key status
is not consulted. -/
def get_create_schema (db_model : DBModel) (exclude_fields : List String) :
    List SchemaField :=
  (db_model.columns.filter
    (fun col => ¬ col.hasDefault ∧ ¬ exclude_fields.contains col.name)).map
    (fun col =>
      { name := col.name, typeIsOptional := col.nullable, requiredField := false })

/-- Embeds `transform.get_update_schema`: one field per mapped column with
`not col.primary_key and col.name not in exclude_fields`. -/
def get_update_schema (db_model : DBModel) (exclude_fields : List String) :
    List SchemaField :=
  (db_model.columns.filter
    (fun col => ¬ col.primary_key ∧ ¬ exclude_fields.contains col.name)).map
    (fun col =>
      { name := col.name, typeIsOptional := col.nullable, requiredField := false })

/-- One field of the synthesized response model: non-excluded columns
(optional iff nullable) followed by non-excluded relationships (always
optional). -/
structure RespField where
  name : String
  typeIsOptional : Bool
  isRelationship : Bool
deriving DecidableEq, Repr

/-- Embeds `transform.get_response_model`: the merged dict of non-excluded
columns and non-excluded relationships. -/
def get_response_model (db_model : DBModel) (exclude_fields : List String) :
    List RespField :=
  (db_model.columns.filter (fun col => ¬ exclude_fields.contains col.name)).map
    (fun col =>
      { name := col.name, typeIsOptional := col.nullable, isRelationship := false })
  ++ (db_model.relationships.filter (fun r => ¬ exclude_fields.contains r)).map
    (fun r => { name := r, typeIsOptional := true, isRelationship := true })

/-- Embeds `transform.build_joins`: one eager-load directive (identified here by
the relationship name it loads) per requested name that is a known
relationship of the model; unknown names are silently dropped. -/
def build_joins (db_model : DBModel) (relationships : List String) :
    List String :=
  relationships.filter (fun r => db_model.relationships.contains r)

/-- The duck-typed argument of `transform.run_postprocessors`: either a
single model instance or a sequence of them (the `isinstance(models,
Sequence)` branch made explicit as a tag). -/
inductive Models (α : Type) where
  | single : α → Models α
  | many : List α → Models α
deriving DecidableEq, Repr

/-- Whether a `Models` value is the sequence variant. -/
def Models.isMany {α : Type} : Models α → Bool
  | .single _ => false
  | .many _ => true

/-- Embeds `transform.run_postprocessors`: when the postprocessor list is truthy
(non-empty), reduce each model through the postprocessors left to right
(`functools.reduce(lambda model, pp: pp(model), postprocessors, model)`),
element-wise on a sequence and once on a single model; otherwise return
the argument unchanged. -/
def run_postprocessors {α : Type} (postprocessors : List (α → α))
    (models : Models α) : Models α :=
  if ¬ postprocessors.isEmpty then
    match models with
    | .many ms =>
        .many (ms.map (fun model =>
          postprocessors.foldl (fun model pp => pp model) model))
    | .single m =>
        .single (postprocessors.foldl (fun model pp => pp model) m)
  else models

/-- A SQLAlchemy model instance as the routes observe it: a mapping from
attribute (column) name to attribute value.  The routes never compute on
values, so they are rendered uniformly as strings. -/
structure Entity where
  fields : List (String × String)
deriving DecidableEq, Repr

/-- Attribute read, `getattr(entity, f)`: the value of the first field
named `f`, if any. -/
def getField (e : Entity) (f : String) : Option String :=
  (e.fields.find? (fun p => p.1 == f)).map (fun p => p.2)

/-- Embeds `setattr(model, k, v)` on a mapped instance: overwrite the field named
`k` with `v` (every mapped column exists as an attribute on the instance,
so this is an in-place overwrite, not an insertion). -/
def setattrEntity (e : Entity) (k : String) (v : String) : Entity :=
  { fields := e.fields.map (fun p => if p.1 == k then (p.1, v) else p) }

/-- The cache client state: an association list from key to cached value
(most recent entry first). -/
abbrev CacheSt (α : Type) := List (String × α)

/-- Embeds `cache.get(key)`. -/
def cacheGet {α : Type} (c : CacheSt α) (k : String) : Option α :=
  (c.find? (fun p => p.1 == k)).map (fun p => p.2)

/-- Embeds `cache.set(key, value, expire)`: overwrite any entry under `key`. -/
def cacheSet {α : Type} (c : CacheSt α) (k : String) (v : α) : CacheSt α :=
  (k, v) :: c.filter (fun p => ¬ p.1 == k)

/-- Embeds `cache.delete(key)`. -/
def cacheDelete {α : Type} (c : CacheSt α) (k : String) : CacheSt α :=
  c.filter (fun p => ¬ p.1 == k)

/-- Embeds `cache.delete_many(keys)`. -/
def cacheDeleteMany {α : Type} (c : CacheSt α) (ks : List String) : CacheSt α :=
  c.filter (fun p => ¬ ks.contains p.1)

/-- Embeds `db.get(Model, item_id, ...)`: fetch by primary key — the first row
whose primary-key column holds `item_id`. -/
def db_get (pk_name : String) (table : List Entity) (item_id : String) :
    Option Entity :=
  table.find? (fun e => getField e pk_name == some item_id)

/-- Insert a row into a list kept sorted by `le` (the embedding of the
ORDER BY clause: any sort satisfying the ordering is a faithful model). -/
def insertSorted (le : Entity → Entity → Bool) (e : Entity) :
    List Entity → List Entity
  | [] => [e]
  | x :: xs => if le e x then e :: x :: xs else x :: insertSorted le e xs

/-- Sort a list of rows by `le` (insertion sort). -/
def sortRows (le : Entity → Entity → Bool) (l : List Entity) : List Entity :=
  l.foldr (insertSorted le) []

/-- Row comparison on the values of the column `f` (ascending). -/
def fieldLe (f : String) (a b : Entity) : Bool :=
  ¬ decide (((getField b f).getD "") < ((getField a f).getD ""))

/-- Embeds `ORDER BY sort_field` ascending, or descending when `sort_desc`. -/
def orderRows (rows : List Entity) (f : String) (desc : Bool) : List Entity :=
  if desc then sortRows (fun a b => fieldLe f b a) rows
  else sortRows (fieldLe f) rows

/-- The single equality filter of `_read_all`: present only when BOTH
`equals_field` and `equals_value` are truthy
(`if equals_field and equals_value:`). -/
def mkFilter (equals_field equals_value : Option String) :
    Option (String × String) :=
  if pyTruthyStr equals_field ∧ pyTruthyStr equals_value then
    some (equals_field.getD "", equals_value.getD "")
  else none

/-- Embeds `db.scalars(select(Model).where(*filter).order_by(sort).limit(limit)
.offset(skip)).all()`: filter by the optional equality criterion, order by
the sort column, then apply OFFSET and LIMIT. -/
def db_query_scalars (rows : List Entity) (filt : Option (String × String))
    (sort_field : String) (sort_desc : Bool) (limit skip : Nat) :
    List Entity :=
  let filtered :=
    match filt with
    | some fv => rows.filter (fun e => getField e fv.1 == some fv.2)
    | none => rows
  ((orderRows filtered sort_field sort_desc).drop skip).take limit

/-- Extract the model from `run_postprocessors` applied to a single model;
the `.many` arm is unreachable because `run_postprocessors` preserves the
variant (`run_postprocessors_single` below). -/
def unwrapSingle {α : Type} (dflt : α) : Models α → α
  | .single x => x
  | .many _ => dflt

/-- Extract the list from `run_postprocessors` applied to a sequence; the
`.single` arm is unreachable because `run_postprocessors` preserves the
variant (`run_postprocessors_many` below). -/
def unwrapMany {α : Type} : Models α → List α
  | .many xs => xs
  | .single x => [x]

/-- Outcome of the `_read_one` route: a cache hit returned as-is, a fetched
(and postprocessed) entity, or the 404 `HTTPException("No resource found")`. -/
inductive ReadOneRes where
  | fromCache : Entity → ReadOneRes
  | ok : Entity → ReadOneRes
  | notFound : ReadOneRes
deriving DecidableEq, Repr

/-- Observable effect of one `_read_one` request: its return value, the
final value of the local `cache_key` variable, the cache state afterwards,
the arguments of every `db.get` call made, and the number of
`run_postprocessors` invocations. -/
structure ReadOneOut where
  result : ReadOneRes
  cache_key : Option String
  cacheAfter : CacheSt Entity
  dbGetArgs : List String
  ppCalls : Nat
deriving Repr

/-- Embeds the route body of `CRUDBuilder._read_one`.  `cacheOn` is the truthiness of
the injected cache collaborator (`if cache:`); `table` is the database
contents; `postprocessors` is `self.response_postprocessors`.  Note that
`cache_prefix.join(f"_{relationships}")` is evaluated and its result
DISCARDED (the source never assigns it), so the cache key never depends on
`relationships`. -/
def read_one_route (db_model : DBModel) (pk_name : String)
    (postprocessors : List (Entity → Entity)) (table : List Entity)
    (cacheOn : Bool) (cacheSt : CacheSt Entity)
    (item_id : String) (relationships : Option String) : ReadOneOut :=
  let cachePfx := pyLower db_model.name
  let _joins : Option (List String) :=
    if pyTruthyStr relationships then
      let _discarded := pyStrJoin cachePfx ("_" ++ relationships.getD "")
      some (build_joins db_model (pySplit (relationships.getD "") ","))
    else none
  let cache_key : Option String :=
    if cacheOn then some (generate_cache_key cachePfx item_id none) else none
  let hit : Option Entity :=
    match cache_key with
    | some ck => cacheGet cacheSt ck
    | none => none
  match hit with
  | some cached_value =>
      { result := .fromCache cached_value, cache_key := cache_key,
        cacheAfter := cacheSt, dbGetArgs := [], ppCalls := 0 }
  | none =>
      match db_get pk_name table item_id with
      | none =>
          { result := .notFound, cache_key := cache_key,
            cacheAfter := cacheSt, dbGetArgs := [item_id], ppCalls := 0 }
      | some model =>
          let model :=
            unwrapSingle model
              (run_postprocessors postprocessors (.single model))
          { result := .ok model, cache_key := cache_key,
            cacheAfter :=
              match cache_key with
              | some ck => cacheSet cacheSt ck model
              | none => cacheSt,
            dbGetArgs := [item_id], ppCalls := 1 }

/-- Observable effect of one `_read_all` request: the returned sequence,
whether it came from a cache hit, the final value of the local `cache_key`
variable, the cache state afterwards, and the number of
`run_postprocessors` invocations. -/
structure ReadAllOut where
  result : List Entity
  hitCache : Bool
  cache_key : Option String
  cacheAfter : CacheSt (List Entity)
  ppCalls : Nat
deriving Repr

/-- Embeds the route body of `CRUDBuilder._read_all`.  All three qualifier
concatenations (`cache_prefix.join(...)` for the equality filter, for a
descending sort, and for the relationship list) are evaluated and their
results DISCARDED, so both branches build the cache key as
`generate_cache_key(cache_prefix, "all")` with the bare lowercased model
name.  An empty query result short-circuits to `[]` before postprocessing
and before the cache write. -/
def read_all_route (db_model : DBModel)
    (postprocessors : List (Entity → Entity)) (table : List Entity)
    (cacheOn : Bool) (cacheSt : CacheSt (List Entity))
    (limit skip : Nat) (sort_field : String) (sort_desc : Bool)
    (equals_field equals_value relationships : Option String) : ReadAllOut :=
  let cachePfx := pyLower db_model.name
  let filt : Option (String × String) :=
    if pyTruthyStr equals_field ∧ pyTruthyStr equals_value then
      let _discarded := pyStrJoin cachePfx
        ("_" ++ equals_field.getD "" ++ "_" ++ equals_value.getD "")
      mkFilter equals_field equals_value
    else none
  let _discardedSort : Option String :=
    if sort_desc then some (pyStrJoin cachePfx ("_" ++ sort_field ++ "_desc"))
    else none
  if pyTruthyStr relationships then
    let _discarded := pyStrJoin cachePfx ("_" ++ relationships.getD "")
    let _joins := build_joins db_model (pySplit (relationships.getD "") ",")
    let cache_key : Option String :=
      if cacheOn then some (generate_cache_key cachePfx "all" none) else none
    let hit : Option (List Entity) :=
      match cache_key with
      | some ck => cacheGet cacheSt ck
      | none => none
    if pyTruthyList hit then
      { result := hit.getD [], hitCache := true, cache_key := cache_key,
        cacheAfter := cacheSt, ppCalls := 0 }
    else
      let models := db_query_scalars table filt sort_field sort_desc limit skip
      if models.isEmpty then
        { result := [], hitCache := false, cache_key := cache_key,
          cacheAfter := cacheSt, ppCalls := 0 }
      else
        let models :=
          unwrapMany (run_postprocessors postprocessors (.many models))
        { result := models, hitCache := false, cache_key := cache_key,
          cacheAfter :=
            match cache_key with
            | some ck => cacheSet cacheSt ck models
            | none => cacheSt,
          ppCalls := 1 }
  else
    let cache_key : Option String :=
      if cacheOn then some (generate_cache_key cachePfx "all" none) else none
    let hit : Option (List Entity) :=
      match cache_key with
      | some ck => cacheGet cacheSt ck
      | none => none
    if pyTruthyList hit then
      { result := hit.getD [], hitCache := true, cache_key := cache_key,
        cacheAfter := cacheSt, ppCalls := 0 }
    else
      let models := db_query_scalars table filt sort_field sort_desc limit skip
      if models.isEmpty then
        { result := [], hitCache := false, cache_key := cache_key,
          cacheAfter := cacheSt, ppCalls := 0 }
      else
        let models :=
          unwrapMany (run_postprocessors postprocessors (.many models))
        { result := models, hitCache := false, cache_key := cache_key,
          cacheAfter :=
            match cache_key with
            | some ck => cacheSet cacheSt ck models
            | none => cacheSt,
          ppCalls := 1 }

/-- The names of the fields of a synthesized schema. -/
def schemaNames (s : List SchemaField) : List String :=
  s.map (fun f => f.name)

/-- Pydantic validation of the raw `update_fields` payload against the
update schema (`ConfigDict(extra="forbid")`): succeeds iff every payload
key names a schema field. -/
def validatePayload (schema : List SchemaField)
    (update_fields : List (String × String)) : Bool :=
  update_fields.all (fun p => (schemaNames schema).contains p.1)

/-- The `for key in update_fields.keys(): setattr(model, key,
getattr(update_schema, key))` loop of `_update_one`: set exactly the
payload keys on the fetched model, in payload order (the validated value
read back from the pydantic model is the payload value). -/
def applyUpdateFields (update_fields : List (String × String)) (model : Entity) :
    Entity :=
  update_fields.foldl (fun model kv => setattrEntity model kv.1 kv.2) model

/-- Replace the first row satisfying `p` (the identity-mapped instance the
session committed). -/
def updateFirst (p : Entity → Bool) (new : Entity) :
    List Entity → List Entity
  | [] => []
  | x :: xs => if p x then new :: xs else x :: updateFirst p new xs

/-- Outcome of the `_update_one` route: pydantic rejection of the payload
(422), the 404 `HTTPException`, or the updated (postprocessed) entity. -/
inductive UpdateRes where
  | validationError : UpdateRes
  | notFound : UpdateRes
  | ok : Entity → UpdateRes
deriving DecidableEq, Repr

/-- Observable effect of one `_update_one` request. -/
structure UpdateOut where
  result : UpdateRes
  tableAfter : List Entity
  cacheAfter : CacheSt Entity
deriving Repr

/-- Embeds the route body of `CRUDBuilder._update_one` on the non-IntegrityError path:
validate the raw payload against the update schema, fetch by primary key
(404 when absent), set exactly the payload keys on the instance, commit,
and — when a cache collaborator is present — delete the single-entity
cache key `generate_cache_key(model_name.lower(), item_id)`; finally run
the postprocessors on the updated instance. -/
def update_one_route (db_model : DBModel) (pk_name : String)
    (update_schema : List SchemaField)
    (postprocessors : List (Entity → Entity)) (table : List Entity)
    (cacheOn : Bool) (cacheSt : CacheSt Entity)
    (item_id : String) (update_fields : List (String × String)) : UpdateOut :=
  if ¬ validatePayload update_schema update_fields then
    { result := .validationError, tableAfter := table, cacheAfter := cacheSt }
  else
    match db_get pk_name table item_id with
    | none =>
        { result := .notFound, tableAfter := table, cacheAfter := cacheSt }
    | some model =>
        let model := applyUpdateFields update_fields model
        let tableAfter :=
          updateFirst (fun e => getField e pk_name == some item_id) model table
        let cacheAfter :=
          if cacheOn then
            cacheDelete cacheSt
              (generate_cache_key (pyLower db_model.name) item_id none)
          else cacheSt
        let model :=
          unwrapSingle model (run_postprocessors postprocessors (.single model))
        { result := .ok model, tableAfter := tableAfter,
          cacheAfter := cacheAfter }

/-- Observable effect of one `_delete_all` request. -/
structure DeleteAllOut where
  result : List Entity
  tableAfter : List Entity
  cacheAfter : CacheSt Entity
deriving Repr

/-- Embeds the route body of `CRUDBuilder._delete_all` on the non-IntegrityError path:
`db.execute(delete(Model)); db.commit()` empties the table, then
`result = self._read_all()(db=db)` re-runs the listing on the now-empty
table with every parameter at its default and NO cache collaborator
(`cache` is not passed, so it defaults to `None`); the per-id keys to
invalidate are derived from that post-delete listing; finally the
postprocessors run on the listing. -/
def delete_all_route (db_model : DBModel) (pk_name : String)
    (postprocessors : List (Entity → Entity)) (_table : List Entity)
    (cacheOn : Bool) (cacheSt : CacheSt Entity) : DeleteAllOut :=
  let tableAfter : List Entity := []
  let result :=
    (read_all_route db_model postprocessors tableAfter false [] 100 0
      pk_name false none none none).result
  let cacheAfter :=
    if cacheOn then
      cacheDeleteMany cacheSt
        (result.map (fun item =>
          generate_cache_key (pyLower db_model.name)
            ((getField item pk_name).getD "") none))
    else cacheSt
  let result := unwrapMany (run_postprocessors postprocessors (.many result))
  { result := result, tableAfter := tableAfter, cacheAfter := cacheAfter }

/-- Errors that `CRUDBuilder.__init__` can surface.  The source defines no
`ConfigurationError` anywhere; `configurationError` is included only as
the vocabulary needed to state the claim of the spec about it.  What the code
actually raises when `get_pk` returns `None` is the Python `AttributeError`
from `self.pk.description`. -/
inductive InitError where
  | configurationError : InitError
  | attributeError : String → InitError
deriving DecidableEq, Repr

/-- The reflected state `CRUDBuilder.__init__` stores on success. -/
structure BuilderState where
  pk_name : String
  create_schema : Option (List SchemaField)
  update_schema : Option (List SchemaField)
  response_model : List RespField
deriving DecidableEq, Repr

/-- Embeds `CRUDBuilder.__init__` (schema inference and metadata reflection):
optionally infer the create/update schemas, then `self.pk =
get_pk(self.db_model)` followed by `self.pk_name = self.pk.description` —
when no column is marked primary key, `get_pk` returns `None` and the
attribute access raises `AttributeError`. -/
def crudBuilderInit (db_model : DBModel) (exclude_fields : List String)
    (infer_create infer_update : Bool) : Except InitError BuilderState :=
  let cs := if infer_create then some (get_create_schema db_model exclude_fields)
            else none
  let us := if infer_update then some (get_update_schema db_model exclude_fields)
            else none
  match get_pk db_model with
  | none =>
      .error (.attributeError "NoneType object has no attribute description")
  | some pk =>
      .ok { pk_name := pk.name, create_schema := cs, update_schema := us,
            response_model := get_response_model db_model exclude_fields }

/-- Spec-side definition of the left-to-right composition of a list of
transforms: apply the head first, then the rest.  Stated from the spec, from its
words (an ordered sequence of transforms applied left to right) to compare
against the `functools.reduce` in the source. -/
def composeLR {α : Type} : List (α → α) → α → α
  | [], x => x
  | f :: fs, x => composeLR fs (f x)

/-! Concrete fixtures used to witness and refute the claims: a model named
`Test` with primary key `id`, nullable columns `name` and `age`, a
server-defaulted column `created`, and one relationship `rel`. -/

/-- The `id` column: primary key, no default. -/
def idColumn : Column :=
  { name := "id", primary_key := true, nullable := false, hasDefault := false }

/-- The `name` column: nullable, no default. -/
def nameColumn : Column :=
  { name := "name", primary_key := false, nullable := true, hasDefault := false }

/-- The `age` column: nullable, no default. -/
def ageColumn : Column :=
  { name := "age", primary_key := false, nullable := true, hasDefault := false }

/-- The `created` column: non-nullable with a server default. -/
def createdColumn : Column :=
  { name := "created", primary_key := false, nullable := false, hasDefault := true }

/-- A concrete model `Test` (cache-key prefix `test`). -/
def testModel : DBModel :=
  { name := "Test", columns := [idColumn, nameColumn, ageColumn, createdColumn],
    relationships := ["rel"] }

/-- A model in which no column is marked primary key. -/
def noPkModel : DBModel :=
  { name := "Test", columns := [nameColumn, ageColumn], relationships := [] }

/-- A row of `testModel` with primary key `1`. -/
def row1 : Entity :=
  { fields := [("id", "1"), ("name", "a"), ("age", "30"), ("created", "t")] }

/-- A second row of `testModel` with primary key `2`. -/
def row2 : Entity :=
  { fields := [("id", "2"), ("name", "b"), ("age", "25"), ("created", "t")] }

theorem foldl_apply_eq_composeLR {α : Type} (fs : List (α → α)) (x : α) :
    fs.foldl (fun model pp => pp model) x = composeLR fs x := by
  induction fs generalizing x with
  | nil => rfl
  | cons f fs ih => simp [composeLR, List.foldl_cons, ih]

theorem run_postprocessors_single {α : Type} (pps : List (α → α)) (m : α) :
    run_postprocessors pps (.single m) = .single (composeLR pps m) := by
  cases pps with
  | nil => rfl
  | cons f fs =>
      simp [run_postprocessors, foldl_apply_eq_composeLR, composeLR]

theorem run_postprocessors_many {α : Type} (pps : List (α → α))
    (ms : List α) :
    run_postprocessors pps (.many ms) = .many (ms.map (composeLR pps)) := by
  cases pps with
  | nil => simp [run_postprocessors, composeLR]
  | cons f fs =>
      simp [run_postprocessors, foldl_apply_eq_composeLR, composeLR]

theorem unwrapSingle_run_single {α : Type} (pps : List (α → α))
    (d m : α) :
    unwrapSingle d (run_postprocessors pps (.single m)) = composeLR pps m := by
  rw [run_postprocessors_single]; rfl

theorem unwrapMany_run_many {α : Type} (pps : List (α → α)) (ms : List α) :
    unwrapMany (run_postprocessors pps (.many ms)) = ms.map (composeLR pps) := by
  rw [run_postprocessors_many]; rfl

theorem getField_setattr (e : Entity) (k' v k : String) :
    getField (setattrEntity e k' v) k =
      if k = k' then (getField e k).map (fun _ => v) else getField e k := by
  rcases e with ⟨fields⟩
  induction fields with
  | nil => by_cases h : k = k' <;> simp [getField, setattrEntity, h]
  | cons p ps ih =>
      simp only [getField, setattrEntity, List.map_cons] at ih ⊢
      by_cases hpk' : p.1 = k' <;> by_cases hpk : p.1 = k
      · subst hpk'; subst hpk
        simp
      · subst hpk'
        have hne : ¬ k = p.1 := fun h => hpk h.symm
        simp only [beq_self_eq_true, if_true]
        rw [List.find?_cons_of_neg _ (by simpa using hpk)]
        rw [List.find?_cons_of_neg _ (by simpa using hpk)]
        simpa [hne] using (by simpa [hne] using ih)
      · subst hpk
        have hne : ¬ p.1 = k' := hpk'
        simp [hne, Ne.symm hne]
      · have hb : (p.1 == k') = false := by simpa using hpk'
        have hb2 : (p.1 == k) = false := by simpa using hpk
        simp only [hb, if_false, Bool.false_eq_true]
        rw [List.find?_cons_of_neg _ (by simp [hb2])]
        rw [List.find?_cons_of_neg _ (by simp [hb2])]
        exact ih

theorem getField_setattr_same (e : Entity) (k v : String) :
    getField (setattrEntity e k v) k = (getField e k).map (fun _ => v) := by
  simp [getField_setattr]

theorem getField_setattr_other (e : Entity) (k' v k : String) (h : k ≠ k') :
    getField (setattrEntity e k' v) k = getField e k := by
  simp [getField_setattr, h]

theorem applyUpdateFields_frame (payload : List (String × String))
    (m : Entity) (k : String) (h : k ∉ payload.map Prod.fst) :
    getField (applyUpdateFields payload m) k = getField m k := by
  induction payload generalizing m with
  | nil => rfl
  | cons kv rest ih =>
      simp only [List.map_cons, List.mem_cons] at h
      push_neg at h
      simp only [applyUpdateFields, List.foldl_cons]
      rw [show (List.foldl (fun model kv => setattrEntity model kv.1 kv.2)
            (setattrEntity m kv.1 kv.2) rest) =
          applyUpdateFields rest (setattrEntity m kv.1 kv.2) from rfl]
      rw [ih _ h.2, getField_setattr_other _ _ _ _ h.1]

theorem applyUpdateFields_set (payload : List (String × String))
    (m : Entity) (k v : String)
    (hnodup : (payload.map Prod.fst).Nodup)
    (hmem : (k, v) ∈ payload)
    (hdom : (getField m k).isSome) :
    getField (applyUpdateFields payload m) k = some v := by
  induction payload generalizing m with
  | nil => cases hmem
  | cons kv rest ih =>
      simp only [List.map_cons, List.nodup_cons] at hnodup
      simp only [applyUpdateFields, List.foldl_cons]
      rw [show (List.foldl (fun model kv => setattrEntity model kv.1 kv.2)
            (setattrEntity m kv.1 kv.2) rest) =
          applyUpdateFields rest (setattrEntity m kv.1 kv.2) from rfl]
      rcases List.mem_cons.mp hmem with heq | hrest
      · have hk : kv.1 = k := by rw [← heq]
        have hv : kv.2 = v := by rw [← heq]
        subst hk
        have hnot : kv.1 ∉ rest.map Prod.fst := hnodup.1
        rw [applyUpdateFields_frame rest _ _ hnot, hv,
          getField_setattr_same]
        rcases Option.isSome_iff_exists.mp hdom with ⟨w, hw⟩
        rw [hw]; rfl
      · by_cases hkk : k = kv.1
        · exfalso
          exact hnodup.1 (hkk ▸ (List.mem_map.mpr ⟨(k, v), hrest, rfl⟩))
        · refine ih (setattrEntity m kv.1 kv.2) hnodup.2 hrest ?_
          rw [getField_setattr_other _ _ _ _ hkk]
          exact hdom

theorem cacheGet_cacheDelete (c : CacheSt Entity) (k : String) :
    cacheGet (cacheDelete c k) k = none := by
  induction c with
  | nil => rfl
  | cons p ps ih =>
      simp only [cacheDelete, cacheGet] at ih ⊢
      by_cases h : p.1 = k
      · have hb : (p.1 == k) = true := by simpa using h
        rw [List.filter_cons_of_neg (by simp [hb])]
        exact ih
      · have hb : (p.1 == k) = false := by simpa using h
        rw [List.filter_cons_of_pos (by simp [hb])]
        rw [List.find?_cons_of_neg _ (by simp [hb])]
        exact ih

theorem cacheDeleteMany_nil (c : CacheSt Entity) :
    cacheDeleteMany c [] = c := by
  simp [cacheDeleteMany]

theorem db_query_scalars_nil (filt : Option (String × String))
    (sort_field : String) (sort_desc : Bool) (limit skip : Nat) :
    db_query_scalars [] filt sort_field sort_desc limit skip = [] := by
  cases filt <;> cases sort_desc <;>
    simp [db_query_scalars, orderRows, sortRows]

theorem read_all_cache_key_const (m : DBModel) (pps : List (Entity → Entity))
    (tbl : List Entity) (cacheSt : CacheSt (List Entity)) (l s : Nat)
    (sf : String) (sd : Bool) (ef ev rel : Option String) :
    (read_all_route m pps tbl true cacheSt l s sf sd ef ev rel).cache_key
      = some (generate_cache_key (pyLower m.name) "all" none) := by
  unfold read_all_route
  simp only [if_true]
  split <;> split <;> simp [apply_ite ReadAllOut.cache_key]

theorem read_one_cache_key_const (m : DBModel) (pk_name : String)
    (pps : List (Entity → Entity)) (tbl : List Entity)
    (cacheSt : CacheSt Entity) (item_id : String) (rel : Option String) :
    (read_one_route m pk_name pps tbl true cacheSt item_id rel).cache_key
      = some (generate_cache_key (pyLower m.name) item_id none) := by
  unfold read_one_route
  simp only [if_true]
  split <;> (try split) <;> rfl

theorem read_all_route_miss_empty (m : DBModel) (pps : List (Entity → Entity))
    (tbl : List Entity) (cacheOn : Bool) (cacheSt : CacheSt (List Entity))
    (l s : Nat) (sf : String) (sd : Bool) (ef ev rel : Option String)
    (hmiss : pyTruthyList
      (if cacheOn then
        cacheGet cacheSt (generate_cache_key (pyLower m.name) "all" none)
      else none) = false)
    (hempty : db_query_scalars tbl (mkFilter ef ev) sf sd l s = []) :
    read_all_route m pps tbl cacheOn cacheSt l s sf sd ef ev rel =
      { result := [], hitCache := false,
        cache_key :=
          if cacheOn then
            some (generate_cache_key (pyLower m.name) "all" none)
          else none,
        cacheAfter := cacheSt, ppCalls := 0 } := by
  cases cacheOn with
  | false =>
      unfold read_all_route
      split <;> simp_all [pyTruthyList, mkFilter]
  | true =>
      unfold read_all_route
      simp only [if_true] at hmiss ⊢
      split <;> simp_all [pyTruthyList, mkFilter]

/-- Claim C8, counterexample: the claim asserts the key is
`"{prefix}_{id}_{qualifier}"` whenever a qualifier is given, but for the
given qualifier `""` the truthiness test of the source (`if cache_postfix`)
selects the two-part format, so the result is `"widget_5"`, not
`"widget_5_"`. -/
theorem C8_counterexample :
    generate_cache_key "widget" "5" (some "") = "widget_5" ∧
    generate_cache_key "widget" "5" (some "") ≠ "widget_5_" := by
  decide

/-- Claim C8 (amended): the cache-key deriver returns `"{prefix}_{id}"`
when no qualifier is given and `"{prefix}_{id}_{qualifier}"` when a
NONEMPTY qualifier is given (an empty-string qualifier is treated as
absent); in particular `deriveKey("widget","5") = "widget_5"`,
`deriveKey("widget","5","rel") = "widget_5_rel"`, and the two differ. -/
theorem C8_theorem (cachePfx item_id q : String) (hq : q ≠ "") :
    generate_cache_key cachePfx item_id none = cachePfx ++ "_" ++ item_id ∧
    generate_cache_key cachePfx item_id (some q)
      = cachePfx ++ "_" ++ item_id ++ "_" ++ q ∧
    generate_cache_key "widget" "5" none = "widget_5" ∧
    generate_cache_key "widget" "5" (some "rel") = "widget_5_rel" ∧
    generate_cache_key "widget" "5" (some "rel")
      ≠ generate_cache_key "widget" "5" none := by
  refine ⟨?_, ?_, by decide, by decide, by decide⟩
  · simp [generate_cache_key, pyTruthyStr]
  · simp [generate_cache_key, pyTruthyStr, hq]

/-- Claim C8, witness: the amended theorem applied at
`("widget", "5", "rel")`. -/
theorem C8_witness :
    generate_cache_key "widget" "5" none = "widget" ++ "_" ++ "5" ∧
    generate_cache_key "widget" "5" (some "rel")
      = "widget" ++ "_" ++ "5" ++ "_" ++ "rel" ∧
    generate_cache_key "widget" "5" none = "widget_5" ∧
    generate_cache_key "widget" "5" (some "rel") = "widget_5_rel" ∧
    generate_cache_key "widget" "5" (some "rel")
      ≠ generate_cache_key "widget" "5" none :=
  C8_theorem "widget" "5" "rel" (by decide)

/-- Claim C2, counterexample: constructing the CRUD engine on a model
without a primary key does fail, but with the `AttributeError` raised by
`self.pk.description` on `None` — not with a `ConfigurationError` (no such
error exists in the source). -/
theorem C2_counterexample :
    crudBuilderInit noPkModel [] false false
      = Except.error
          (InitError.attributeError "NoneType object has no attribute description") ∧
    crudBuilderInit noPkModel [] false false
      ≠ Except.error InitError.configurationError := by
  constructor
  · rfl
  · intro h
    simp [crudBuilderInit, get_pk, noPkModel, nameColumn, ageColumn] at h

/-- Claim C2 (amended): for every table model in which no column is marked
primary key, constructing the CRUD engine fails — but with an
`AttributeError` from dereferencing the `None` returned by `get_pk`
(`self.pk.description`), not with a `ConfigurationError`: the source
defines no `ConfigurationError`. -/
theorem C2_theorem (db_model : DBModel) (exclude_fields : List String)
    (infer_create infer_update : Bool) (h : get_pk db_model = none) :
    crudBuilderInit db_model exclude_fields infer_create infer_update
      = Except.error
          (InitError.attributeError "NoneType object has no attribute description") := by
  unfold crudBuilderInit
  rw [h]

/-- Claim C2, witness: the amended theorem applied to `noPkModel`. -/
theorem C2_witness :
    crudBuilderInit noPkModel [] false false
      = Except.error
          (InitError.attributeError "NoneType object has no attribute description") :=
  C2_theorem noPkModel [] false false (by decide)

/-- Claim C7: the postprocessor pipeline applied to a single entity is the
left-to-right composition of the postprocessors applied once; applied to a
sequence of n entities it is that composition mapped over the sequence
(hence n outputs); and the output is the sequence variant exactly when the
input is. -/
theorem C7_theorem {α : Type} (pps : List (α → α)) (e : α) (es : List α)
    (ms : Models α) :
    run_postprocessors pps (Models.single e) = Models.single (composeLR pps e) ∧
    run_postprocessors pps (Models.many es) = Models.many (es.map (composeLR pps)) ∧
    (unwrapMany (run_postprocessors pps (Models.many es))).length = es.length ∧
    (run_postprocessors pps ms).isMany = ms.isMany := by
  refine ⟨run_postprocessors_single pps e, run_postprocessors_many pps es, ?_, ?_⟩
  · rw [unwrapMany_run_many]
    exact List.length_map es (composeLR pps)
  · cases ms with
    | single m => rw [run_postprocessors_single]; rfl
    | many l => rw [run_postprocessors_many]; rfl

/-- Claim C5: for every table model and exclusion set, the field set of the create
schema is exactly the non-excluded columns lacking a default value
(primary-key status is never consulted, so it alone excludes nothing), and
the field set of the update schema is exactly the non-excluded, non-primary-key
columns, each marked optional (default `None`, not required). -/
theorem C5_theorem (m : DBModel) (ex : List String) :
    (∀ n, n ∈ schemaNames (get_create_schema m ex) ↔
      ∃ c, c ∈ m.columns ∧ c.name = n ∧ c.hasDefault = false ∧ n ∉ ex) ∧
    (∀ n, n ∈ schemaNames (get_update_schema m ex) ↔
      ∃ c, c ∈ m.columns ∧ c.name = n ∧ c.primary_key = false ∧ n ∉ ex) ∧
    (∀ f, f ∈ get_update_schema m ex → f.requiredField = false) := by
  refine ⟨fun n => ?_, fun n => ?_, fun f hf => ?_⟩
  · simp only [schemaNames, get_create_schema, List.map_map, List.mem_map,
      List.mem_filter, Function.comp]
    constructor
    · rintro ⟨c, ⟨hc, hp⟩, rfl⟩
      simp only [decide_eq_true_eq, Bool.not_eq_true] at hp
      refine ⟨c, hc, rfl, hp.1, ?_⟩
      simpa using hp.2
    · rintro ⟨c, hc, rfl, hd, hex⟩
      refine ⟨c, ⟨hc, ?_⟩, rfl⟩
      simp [hd, hex]
  · simp only [schemaNames, get_update_schema, List.map_map, List.mem_map,
      List.mem_filter, Function.comp]
    constructor
    · rintro ⟨c, ⟨hc, hp⟩, rfl⟩
      simp only [decide_eq_true_eq, Bool.not_eq_true] at hp
      refine ⟨c, hc, rfl, hp.1, ?_⟩
      simpa using hp.2
    · rintro ⟨c, hc, rfl, hd, hex⟩
      refine ⟨c, ⟨hc, ?_⟩, rfl⟩
      simp [hd, hex]
  · simp only [get_update_schema, List.mem_map] at hf
    rcases hf with ⟨c, hc, rfl⟩
    rfl

/-- Claim C5, witness: on `testModel` with an empty exclusion set, the
primary-key column `id` (which has no default) is a create-schema field,
and an update-schema field is not required. -/
theorem C5_witness :
    "id" ∈ schemaNames (get_create_schema testModel []) ∧
    ({ name := "name", typeIsOptional := true, requiredField := false } :
      SchemaField).requiredField = false := by
  have h := C5_theorem testModel []
  exact ⟨(h.1 "id").mpr ⟨idColumn, by decide, rfl, rfl, by decide⟩,
    h.2.2 _ (by decide)⟩

/-- Claim C1, counterexample: two ReadAll requests on the same entity with
DIFFERENT filter/sort/relationship combinations look up and store under
the SAME cache key `test_all`, and two ReadOne requests with different
relationship qualifiers use the same key `test_1`: the qualifier strings
are built but the `str.join` results are discarded, so qualifiers never
reach the key. -/
theorem C1_counterexample :
    (read_all_route testModel [] [row1] true [] 100 0 "id" false
      none none none).cache_key = some "test_all" ∧
    (read_all_route testModel [] [row1] true [] 100 0 "id" true
      (some "name") (some "a") (some "rel")).cache_key = some "test_all" ∧
    (read_one_route testModel "id" [] [row1] true [] "1"
      none).cache_key = some "test_1" ∧
    (read_one_route testModel "id" [] [row1] true [] "1"
      (some "rel")).cache_key = some "test_1" := by
  refine ⟨?_, ?_, ?_, ?_⟩ <;> rfl

/-- Claim C1 (amended): whenever a cache collaborator is present, every
ReadAll request on an entity uses the single cache key
`generate_cache_key(model_name.lower(), "all")` regardless of its
equality-filter, sort-direction and relationship qualifiers, and every
ReadOne request uses `generate_cache_key(model_name.lower(), item_id)`
regardless of its relationship qualifier: the same combination always
yields the same key, but differing combinations also collapse to that one
key (the qualifier concatenations are computed and discarded). -/
theorem C1_theorem :
    (∀ (m : DBModel) (pps : List (Entity → Entity)) (tbl : List Entity)
      (cacheSt : CacheSt (List Entity)) (l s : Nat) (sf : String) (sd : Bool)
      (ef ev rel : Option String),
      (read_all_route m pps tbl true cacheSt l s sf sd ef ev rel).cache_key
        = some (generate_cache_key (pyLower m.name) "all" none)) ∧
    (∀ (m : DBModel) (pk : String) (pps : List (Entity → Entity))
      (tbl : List Entity) (cacheSt : CacheSt Entity) (item_id : String)
      (rel : Option String),
      (read_one_route m pk pps tbl true cacheSt item_id rel).cache_key
        = some (generate_cache_key (pyLower m.name) item_id none)) :=
  ⟨read_all_cache_key_const, read_one_cache_key_const⟩

/-- Claim C9: a ReadAll request whose query yields no rows (and which is
not served from the cache) returns the empty sequence and does not report
a cache hit; `_read_all` contains no `HTTPException` at all — its outcome
type `ReadAllOut` has no failure case — so it can never fail with
NotFound. -/
theorem C9_theorem (m : DBModel) (pps : List (Entity → Entity))
    (tbl : List Entity) (cacheOn : Bool) (cacheSt : CacheSt (List Entity))
    (l s : Nat) (sf : String) (sd : Bool) (ef ev rel : Option String)
    (hmiss : pyTruthyList
      (if cacheOn then
        cacheGet cacheSt (generate_cache_key (pyLower m.name) "all" none)
      else none) = false)
    (hempty : db_query_scalars tbl (mkFilter ef ev) sf sd l s = []) :
    (read_all_route m pps tbl cacheOn cacheSt l s sf sd ef ev rel).result = []
    ∧ (read_all_route m pps tbl cacheOn cacheSt l s sf sd ef ev rel).hitCache
        = false := by
  rw [read_all_route_miss_empty m pps tbl cacheOn cacheSt l s sf sd ef ev rel
    hmiss hempty]
  exact ⟨rfl, rfl⟩

/-- Claim C9, witness: the theorem applied to `testModel` with an empty
table, an enabled (empty) cache, and default query parameters. -/
theorem C9_witness :
    (read_all_route testModel [] [] true [] 100 0 "id" false
      none none none).result = []
    ∧ (read_all_route testModel [] [] true [] 100 0 "id" false
      none none none).hitCache = false :=
  C9_theorem testModel [] [] true [] 100 0 "id" false none none none
    (by decide) (by decide)

/-- Claim C10: a ReadAll request whose query yields no rows (and which is
not served from the cache) returns the empty sequence immediately: the
postprocessor pipeline is never invoked (`ppCalls = 0`) and the cache
state is left exactly as it was — in particular the empty result is not
written to the cache even though this is a cache miss. -/
theorem C10_theorem (m : DBModel) (pps : List (Entity → Entity))
    (tbl : List Entity) (cacheOn : Bool) (cacheSt : CacheSt (List Entity))
    (l s : Nat) (sf : String) (sd : Bool) (ef ev rel : Option String)
    (hmiss : pyTruthyList
      (if cacheOn then
        cacheGet cacheSt (generate_cache_key (pyLower m.name) "all" none)
      else none) = false)
    (hempty : db_query_scalars tbl (mkFilter ef ev) sf sd l s = []) :
    (read_all_route m pps tbl cacheOn cacheSt l s sf sd ef ev rel).result = []
    ∧ (read_all_route m pps tbl cacheOn cacheSt l s sf sd ef ev rel).ppCalls = 0
    ∧ (read_all_route m pps tbl cacheOn cacheSt l s sf sd ef ev rel).cacheAfter
        = cacheSt := by
  rw [read_all_route_miss_empty m pps tbl cacheOn cacheSt l s sf sd ef ev rel
    hmiss hempty]
  exact ⟨rfl, rfl, rfl⟩

/-- Claim C10, witness: the theorem applied to a populated table whose
equality filter matches no row, with a cache collaborator present and a
non-empty cache state that is left unchanged. -/
theorem C10_witness :
    (read_all_route testModel [] [row1] true [("other", [row2])] 100 0 "id"
      false (some "name") (some "zzz") none).result = []
    ∧ (read_all_route testModel [] [row1] true [("other", [row2])] 100 0 "id"
      false (some "name") (some "zzz") none).ppCalls = 0
    ∧ (read_all_route testModel [] [row1] true [("other", [row2])] 100 0 "id"
      false (some "name") (some "zzz") none).cacheAfter = [("other", [row2])] :=
  C10_theorem testModel [] [row1] true [("other", [row2])] 100 0 "id" false
    (some "name") (some "zzz") none (by decide) (by decide)

/-- Claim C4: on a successful UpdateOne, exactly the fields named by the
payload keys are set to the payload values on the stored entity, every
other field keeps its previous value (partial update, not full replace),
the returned entity is the postprocessed updated instance, and the
single-entity cache key `generate_cache_key(model_name.lower(), item_id)`
is deleted from the cache. -/
theorem C4_theorem (m : DBModel) (pk : String) (schema : List SchemaField)
    (pps : List (Entity → Entity)) (tbl : List Entity)
    (cacheSt : CacheSt Entity) (item_id : String)
    (payload : List (String × String)) (ent : Entity)
    (hdb : db_get pk tbl item_id = some ent)
    (hval : validatePayload schema payload = true)
    (hnodup : (payload.map Prod.fst).Nodup)
    (hdom : ∀ k v, (k, v) ∈ payload → (getField ent k).isSome) :
    (update_one_route m pk schema pps tbl true cacheSt item_id payload).result
        = UpdateRes.ok (composeLR pps (applyUpdateFields payload ent))
    ∧ (∀ k v, (k, v) ∈ payload →
        getField (applyUpdateFields payload ent) k = some v)
    ∧ (∀ k, k ∉ payload.map Prod.fst →
        getField (applyUpdateFields payload ent) k = getField ent k)
    ∧ cacheGet
        (update_one_route m pk schema pps tbl true cacheSt item_id
          payload).cacheAfter
        (generate_cache_key (pyLower m.name) item_id none) = none := by
  refine ⟨?_,
    fun k v hkv => applyUpdateFields_set payload ent k v hnodup hkv
      (hdom k v hkv),
    fun k hk => applyUpdateFields_frame payload ent k hk, ?_⟩
  · simp only [update_one_route, hval]
    simp only [hdb]
    simp [unwrapSingle_run_single]
  · simp only [update_one_route, hval]
    simp only [hdb]
    simp [cacheGet_cacheDelete]

/-- Claim C4, witness: updating entity `1` of `testModel` with the partial
payload `{name: "X"}` sets `name`, leaves `age` unchanged, and deletes the
cache key `test_1`. -/
theorem C4_witness :
    (update_one_route testModel "id" (get_update_schema testModel []) []
      [row1] true [("test_1", row1)] "1" [("name", "X")]).result
        = UpdateRes.ok (composeLR [] (applyUpdateFields [("name", "X")] row1))
    ∧ getField (applyUpdateFields [("name", "X")] row1) "name" = some "X"
    ∧ getField (applyUpdateFields [("name", "X")] row1) "age"
        = getField row1 "age"
    ∧ cacheGet
        (update_one_route testModel "id" (get_update_schema testModel []) []
          [row1] true [("test_1", row1)] "1" [("name", "X")]).cacheAfter
        (generate_cache_key (pyLower testModel.name) "1" none) = none := by
  have h := C4_theorem testModel "id" (get_update_schema testModel []) []
    [row1] [("test_1", row1)] "1" [("name", "X")] row1 (by decide) (by decide)
    (by decide)
    (by
      intro k v hkv
      simp only [List.mem_singleton, Prod.mk.injEq] at hkv
      obtain ⟨rfl, rfl⟩ := hkv
      decide)
  exact ⟨h.1, h.2.1 "name" "X" (by decide), h.2.2.1 "age" (by decide), h.2.2.2⟩

/-- Claim C6: a ReadOne request with no cache hit invokes the data-access
`get` exactly once, with the resolved primary-key argument `item_id`; when
an entity with that primary key exists the handler returns it
postprocessed, and when none exists it fails with the 404 NotFound
exception. -/
theorem C6_theorem (m : DBModel) (pk : String) (pps : List (Entity → Entity))
    (tbl : List Entity) (cacheOn : Bool) (cacheSt : CacheSt Entity)
    (item_id : String) (rel : Option String)
    (hmiss : (if cacheOn then
        cacheGet cacheSt (generate_cache_key (pyLower m.name) item_id none)
      else none) = none) :
    (read_one_route m pk pps tbl cacheOn cacheSt item_id rel).dbGetArgs
        = [item_id]
    ∧ (∀ ent, db_get pk tbl item_id = some ent →
        (read_one_route m pk pps tbl cacheOn cacheSt item_id rel).result
          = ReadOneRes.ok (composeLR pps ent))
    ∧ (db_get pk tbl item_id = none →
        (read_one_route m pk pps tbl cacheOn cacheSt item_id rel).result
          = ReadOneRes.notFound) := by
  refine ⟨?_, fun ent hdb => ?_, fun hdb => ?_⟩
  · cases cacheOn with
    | false =>
        cases hdb : db_get pk tbl item_id <;>
          simp [read_one_route, hdb]
    | true =>
        simp only [if_true] at hmiss
        cases hdb : db_get pk tbl item_id <;>
          simp [read_one_route, hmiss, hdb]
  · cases cacheOn with
    | false => simp [read_one_route, hdb, unwrapSingle_run_single]
    | true =>
        simp only [if_true] at hmiss
        simp [read_one_route, hmiss, hdb, unwrapSingle_run_single]
  · cases cacheOn with
    | false => simp [read_one_route, hdb]
    | true =>
        simp only [if_true] at hmiss
        simp [read_one_route, hmiss, hdb]

/-- Claim C6, witness: the theorem applied to `testModel` with rows 1 and
2, an enabled empty cache, and `item_id = "2"`: one `db.get` call with
argument `"2"` and the entity with that key returned. -/
theorem C6_witness :
    (read_one_route testModel "id" [] [row1, row2] true [] "2"
      none).dbGetArgs = ["2"]
    ∧ (read_one_route testModel "id" [] [row1, row2] true [] "2"
      none).result = ReadOneRes.ok (composeLR [] row2) := by
  have h := C6_theorem testModel "id" [] [row1, row2] true [] "2" none
    (by decide)
  exact ⟨h.1, h.2.1 row2 (by decide)⟩

/-- Claim C3, counterexample: DeleteAll on the non-empty table `[row1]`
with the per-id key `test_1` previously cached leaves the table (and the
returned listing) empty, but the cache still holds `test_1` afterwards:
the keys to invalidate are derived from the POST-delete listing, which is
always empty, so no key is ever deleted. -/
theorem C3_counterexample :
    (delete_all_route testModel "id" [] [row1] true
      [("test_1", row1)]).tableAfter = []
    ∧ (delete_all_route testModel "id" [] [row1] true
      [("test_1", row1)]).result = []
    ∧ cacheGet (delete_all_route testModel "id" [] [row1] true
      [("test_1", row1)]).cacheAfter "test_1" = some row1 := by
  refine ⟨rfl, rfl, rfl⟩

/-- Claim C3 (amended): after DeleteAll the table is empty, the returned
sequence is empty, and a subsequent ReadAll that queries the database
(no cache hit) returns the empty sequence — but the per-id cache
invalidation derives its keys from the post-delete (empty) listing, so it
deletes nothing: the cache state is left completely unchanged, and
previously cached per-id keys survive. -/
theorem C3_theorem (m : DBModel) (pk : String) (pps : List (Entity → Entity))
    (tbl : List Entity) (cacheOn : Bool) (cacheSt : CacheSt Entity) :
    (delete_all_route m pk pps tbl cacheOn cacheSt).tableAfter = []
    ∧ (delete_all_route m pk pps tbl cacheOn cacheSt).result = []
    ∧ (delete_all_route m pk pps tbl cacheOn cacheSt).cacheAfter = cacheSt
    ∧ (∀ (pps2 : List (Entity → Entity)) (cs2 : CacheSt (List Entity))
        (l s : Nat) (sf : String) (sd : Bool) (ef ev rel : Option String),
        (read_all_route m pps2
          (delete_all_route m pk pps tbl cacheOn cacheSt).tableAfter
          false cs2 l s sf sd ef ev rel).result = []) := by
  have hrec := read_all_route_miss_empty m pps [] false [] 100 0 pk false
    none none none rfl (db_query_scalars_nil _ _ _ _ _)
  refine ⟨rfl, ?_, ?_, ?_⟩
  · simp only [delete_all_route]
    rw [hrec]
    simp [unwrapMany_run_many]
  · cases cacheOn with
    | false => rfl
    | true =>
        simp only [delete_all_route]
        rw [hrec]
        simp [cacheDeleteMany]
  · intro pps2 cs2 l s sf sd ef ev rel
    have ht : (delete_all_route m pk pps tbl cacheOn cacheSt).tableAfter
        = [] := rfl
    rw [ht, read_all_route_miss_empty m pps2 [] false cs2 l s sf sd ef ev rel
      rfl (db_query_scalars_nil _ _ _ _ _)]

end Crudbuilder
